import Mathlib

/-!
# Verification of the compact-binary-client repository

Shallow embedding of the Python sources (`encoder.py`, `encoder_packets.py`,
`encoder_data.py`, `decoder.py`, `at.py`, `client.py`) and proofs of the
frozen claims about them.

Conventions of the embedding:
* Python `bytes` values are `List Nat`, each element `< 256`.
* Python strings are `List Char` (a Lean `String`'s `.data`).
* Fallible code (`struct.pack` range errors, `str.encode('ascii')` errors)
  returns `Option`.
* `struct.pack` big-endian fields are spelled out with `/` and `%` on `Nat`
  (two's complement via `Int.emod` for signed fields).
-/

/-! ## Byte-level helpers (struct.pack '>H', '>h', '>I' big-endian fields) -/

/-- Big-endian bytes of an unsigned 16-bit value (`struct.pack '>H'`),
assuming the value is already in range. -/
def u16be (n : Nat) : List Nat := [n / 256, n % 256]

/-- Big-endian bytes of an unsigned 32-bit value (`struct.pack '>I'`). -/
def u32be (n : Nat) : List Nat :=
  [n / 16777216 % 256, n / 65536 % 256, n / 256 % 256, n % 256]

/-- Big-endian two's-complement bytes of a signed 16-bit value
(`struct.pack '>h'`), assuming `-32768 ≤ n ≤ 32767`. -/
def i16be (n : Int) : List Nat :=
  [((n % 65536) / 256).toNat, ((n % 65536) % 256).toNat]

/-! ## encoder.py -/

/-- Model of `encoder.encode_var_string`: ASCII-encode the string (error on a
non-ASCII character, as Python's `str.encode('ascii')` raises), truncate
to 255 bytes if longer, and prepend one length byte. -/
def encode_var_string (s : List Char) : Option (List Nat) :=
  if s.all (fun c => c.toNat < 128) then
    let bytes_data := s.map Char.toNat
    let bytes_data := if bytes_data.length > 255 then bytes_data.take 255 else bytes_data
    some (bytes_data.length :: bytes_data)
  else
    none

/-! ## encoder_packets.py -/

/-- One step of the BCD packing loop in `Packet._encode_imei_bcd`:
`b.append((high << 4) | low)` with `high = int(digits[i])`,
`low = int(digits[i+1])`. -/
def packBcdPairs : List Char → List Nat
  | d1 :: d2 :: rest => ((d1.toNat - 48) * 16 + (d2.toNat - 48)) :: packBcdPairs rest
  | _ => []

/-- Model of `Packet._encode_imei_bcd`: keep only digit characters, return eight zero
bytes when none remain, otherwise left-pad with a `'0'` when the digit count
is odd, pack two digits per byte (first digit in the high nibble), then pad
with zero bytes to 8 bytes or truncate to the first 8 bytes. -/
def encode_imei_bcd (imei_str : List Char) : List Nat :=
  let digits := imei_str.filter Char.isDigit
  if digits.length = 0 then
    List.replicate 8 0
  else
    let digits := if digits.length % 2 = 1 then '0' :: digits else digits
    let b := packBcdPairs digits
    if b.length < 8 then b ++ List.replicate (8 - b.length) 0
    else b.take 8

/-- Model of `Packet.build_header`: `struct.pack('>BBBH', version, ord(cmd[0]),
ord(cmd[1]), transaction_id) + imei_bytes`.  `struct.pack` raises when a
field is out of range, hence the `Option`. -/
def build_header (version : Nat) (cmd1 cmd2 : Char) (transaction_id : Nat)
    (imei : List Char) : Option (List Nat) :=
  if version < 256 ∧ cmd1.toNat < 256 ∧ cmd2.toNat < 256 ∧ transaction_id < 65536 then
    some ([version, cmd1.toNat, cmd2.toNat] ++ u16be transaction_id ++ encode_imei_bcd imei)
  else
    none

/-! ## decoder.py -/

/-- Result of `PacketDecoder.decode_packet_header` (the successful path,
which on a well-formed hex input never raises): version byte, the two
command characters, the transaction id, and the remaining bytes. -/
structure DecodedHeader where
  version : Option Nat
  command : Option (List Char)
  txn_id : Option Nat
  remainder : List Nat
  deriving DecidableEq, Repr

/-- Model of `PacketDecoder.decode_packet_header`, applied to the byte sequence
obtained from the hex string: `version = data[0]` when present, `command =
chr(data[1]) + chr(data[2])` when `len(data) > 2`, `txn_id` big-endian from
`data[3:5]` when `len(data) > 4`, and the remainder `data[5:]`. -/
def decode_packet_header (data : List Nat) : DecodedHeader where
  version := if data.length > 0 then some (data.getD 0 0) else none
  command :=
    if data.length > 2 then
      some [Char.ofNat (data.getD 1 0), Char.ofNat (data.getD 2 0)]
    else none
  txn_id :=
    if data.length > 4 then some (data.getD 3 0 * 256 + data.getD 4 0) else none
  remainder := data.drop 5

/-! ## encoder_data.py

Temperatures and humidities are Python floats.  The claims about them are
settled at dyadic rationals (such as `3/4` and `-1`) on which the Python
float arithmetic `value * 10` is exact, so the embedding uses `ℚ` with
exact arithmetic together with Python's `int(·)` (truncation toward zero)
and `round(·)` (nearest, ties to even). -/

/-- Python `int(x)` on a number: truncation toward zero. -/
def pyTrunc (q : ℚ) : Int :=
  if 0 ≤ q then ⌊q⌋ else ⌈q⌉

/-- Python `round(x)` to an integer: nearest integer, ties to even. -/
def pyRound (q : ℚ) : Int :=
  let f := ⌊q⌋
  if q - f < 1/2 then f
  else if q - f > 1/2 then f + 1
  else if f % 2 = 0 then f else f + 1

/-- Model of `SensorData.to_bytes`: payload `struct.pack('>HBB',
int(self.temperature * 10), self.battery, self.rssi)` preceded by
`struct.pack('>BBB', sensor_type, sensor_version, len(payload))`.
The `'H'` field raises `struct.error` unless `0 ≤ int(temp*10) < 65536`,
hence the `Option`. -/
def SensorData.to_bytes (sensor_type sensor_version : Nat) (temperature : ℚ)
    (battery rssi : Nat) : Option (List Nat) :=
  let t := pyTrunc (temperature * 10)
  if 0 ≤ t ∧ t < 65536 ∧ battery < 256 ∧ rssi < 256 ∧
      sensor_type < 256 ∧ sensor_version < 256 then
    some ([sensor_type, sensor_version, 4] ++ u16be t.toNat ++ [battery, rssi])
  else
    none

/-- One record of `SensorMultiData.to_bytes`:
`struct.pack('>hh', int(round(temperature * 10)), int(round(humidity * 10)))`.
The `'h'` fields raise unless the rounded values fit a signed 16-bit. -/
def SensorMultiData.record_bytes (temperature humidity : ℚ) : Option (List Nat) :=
  let t := pyRound (temperature * 10)
  let h := pyRound (humidity * 10)
  if -32768 ≤ t ∧ t ≤ 32767 ∧ -32768 ≤ h ∧ h ≤ 32767 then
    some (i16be t ++ i16be h)
  else
    none

/-- Folds `SensorMultiData.record_bytes` over the record list, failing if
any record fails (`records_bytes += struct.pack('>hh', ...)`). -/
def SensorMultiData.records_bytes : List (ℚ × ℚ) → Option (List Nat)
  | [] => some []
  | (t, h) :: rest => do
      let b ← SensorMultiData.record_bytes t h
      let bs ← SensorMultiData.records_bytes rest
      pure (b ++ bs)

/-- Model of `SensorMultiData.to_bytes`: payload header
`struct.pack('>BBIHB', battery, rssi, first_timestamp, interval, len(records))`,
the concatenated records, then the outer
`struct.pack('>BBB', 2, 1, len(payload))` header. -/
def SensorMultiData.to_bytes (battery rssi first_timestamp interval : Nat)
    (records : List (ℚ × ℚ)) : Option (List Nat) :=
  if battery < 256 ∧ rssi < 256 ∧ first_timestamp < 4294967296 ∧
      interval < 65536 ∧ records.length < 256 then do
    let recs ← SensorMultiData.records_bytes records
    let payload := [battery, rssi] ++ u32be first_timestamp ++
      u16be interval ++ [records.length] ++ recs
    if payload.length < 256 then
      pure ([2, 1, payload.length] ++ payload)
    else
      none
  else
    none

/-! ## client.py: transaction ids and the acknowledgment correlator -/

/-- Model of `next_transaction_id`: `transaction_id = (transaction_id + 1) % 65536;
return transaction_id`, as a pure state transition returning the new
counter value (which is also the returned id). -/
def next_transaction_id (s : Nat) : Nat := (s + 1) % 65536

/-- The counter state after `k` calls of `next_transaction_id` starting
from state `s`; for `k ≥ 1` this is also the value returned by the `k`-th
call. -/
def transaction_id_after (s : Nat) : Nat → Nat
  | 0 => s
  | k + 1 => next_transaction_id (transaction_id_after s k)

/-- The correlator state shared by `wait_for_ack` and the ack branch of
`ack_handler_thread`: the `_acked_txn_ids` set (modelled as a duplicate-free
list), the `_ack_events` mapping (transaction id to the set-flag of its
`Event`), and the legacy `ack_event` flag. -/
structure AckState where
  acked : List Nat
  events : List (Nat × Bool)
  legacy : Bool
  deriving DecidableEq, Repr

/-- The ack branch of `ack_handler_thread` ("resolve"): add the id to
`_acked_txn_ids` (a Python `set`, so adding an existing element changes
nothing), pop its entry from `_ack_events` (setting the popped event wakes
the waiter; the entry leaves the mapping), and set the legacy `ack_event`. -/
def resolve (st : AckState) (txn : Nat) : AckState where
  acked := if txn ∈ st.acked then st.acked else st.acked ++ [txn]
  events := st.events.filter (fun p => p.1 ≠ txn)
  legacy := true

/-- The registration phase of `wait_for_ack txn`: `some true` paired with
the unchanged state when the fast path fires (`txn in _acked_txn_ids`);
otherwise `none` (the caller must block on the event) paired with the state
in which an event for `txn` is registered if none existed. -/
def wait_for_ack_register (st : AckState) (txn : Nat) : Option Bool × AckState :=
  if txn ∈ st.acked then (some true, st)
  else if (st.events.filter (fun p => p.1 = txn)).length > 0 then (none, st)
  else (none, { st with events := st.events ++ [(txn, false)] })

/-! ## at.py: the line reader and the command gate -/

/-- The Python value held in `AtTerminal.responseData`: `None`, a single
string, or a list of strings. -/
inductive RespData where
  | nil : RespData
  | str : List Char → RespData
  | lst : List (List Char) → RespData
  deriving DecidableEq, Repr

/-- Python truthiness of a `responseData` value (`if self.responseData:`):
`None` and the empty string and the empty list are falsy. -/
def RespData.truthy : RespData → Bool
  | .nil => false
  | .str s => !s.isEmpty
  | .lst l => !l.isEmpty

/-- The accumulation step at the end of `AtTerminal.read`: when the current
`responseData` is truthy, a single string is promoted to a list and the new
response is appended; otherwise the new response replaces it. -/
def RespData.accumulate (rd : RespData) (resp : List Char) : RespData :=
  if rd.truthy then
    match rd with
    | .str s => .lst [s, resp]
    | .lst l => .lst (l ++ [resp])
    | .nil => .str resp
  else
    .str resp

/-- A `\w` character of Python's `re` on the ASCII lines at hand:
alphanumeric or underscore. -/
def isWordChar (c : Char) : Bool := c.isAlphanum || c = '_'

/-- Python whitespace stripped by `str.strip()` on the characters that occur
in modem lines: space, tab, carriage return, newline. -/
def pyStrip (l : List Char) : List Char :=
  ((l.dropWhile Char.isWhitespace).reverse.dropWhile Char.isWhitespace).reverse

/-- Model of `re.search(r'^%(\w+):(.+)$', s)` (no MULTILINE): `^` anchors at the
start, `$` matches at the end or just before one final newline, `.` does
not cross a newline.  So the line matches exactly when, after removing one
trailing `'\n'` if present, it reads `%tag:data` with `tag` a nonempty run
of word characters, `data` nonempty and free of `'\n'`.  Returns
`(group(1), group(2))`. -/
def matchUrc (s : List Char) : Option (List Char × List Char) :=
  let core := if s.getLast? = some '\n' then s.dropLast else s
  match core with
  | '%' :: rest =>
    let tag := rest.takeWhile isWordChar
    match rest.drop tag.length with
    | ':' :: data =>
      if tag ≠ [] ∧ data ≠ [] ∧ ¬ data.contains '\n' then some (tag, data) else none
    | _ => none
  | _ => none

/-- Model of `line_string.split(':', 1)`: split at the first colon only. -/
def splitOnceColon : List Char → Option (List Char × List Char)
  | [] => none
  | c :: rest =>
    if c = ':' then some ([], rest)
    else (splitOnceColon rest).map (fun p => (c :: p.1, p.2))

/-- The response text a non-terminator line contributes:
`parts[1].strip()` when the line contains a colon, else the stripped
line. -/
def respOf (line : List Char) : List Char :=
  match splitOnceColon line with
  | some p => pyStrip p.2
  | none => pyStrip line

/-- The reader-side state of `AtTerminal` touched by `read` and
`send_command`: the success flag, the completion event, the accumulated
response data, and the URC queue (as the list of `(urc, data)` pairs in
FIFO order). -/
structure ReaderState where
  responseSuccess : Bool
  eventSet : Bool
  responseData : RespData
  urcQueue : List (List Char × List Char)
  deriving DecidableEq, Repr

/-- The state of a freshly constructed `AtTerminal`. -/
def ReaderState.init : ReaderState where
  responseSuccess := false
  eventSet := false
  responseData := .nil
  urcQueue := []

/-- The reset of the shared accumulator state at the top of the recognized
branch of `send_command`: `responseEvent.clear(); responseData = None;
responseSuccess = False` (the URC queue is not touched). -/
def ReaderState.cleared (st : ReaderState) : ReaderState where
  responseSuccess := false
  eventSet := false
  responseData := .nil
  urcQueue := st.urcQueue

/-- One iteration of the loop body of `AtTerminal.read` on a decoded line:
blank lines are skipped, `OK\r\n` and `ERROR\r\n` set the flag and the
completion event and skip the rest, and every other line is first tested
against the URC pattern (a match is enqueued) and then — with no
`continue` in between — accumulated into `responseData`. -/
def read_step (st : ReaderState) (line : List Char) : ReaderState :=
  if line = ['\r', '\n'] then st
  else if line = ['O', 'K', '\r', '\n'] then
    { st with responseSuccess := true, eventSet := true }
  else if line = ['E', 'R', 'R', 'O', 'R', '\r', '\n'] then
    { st with responseSuccess := false, eventSet := true }
  else
    let st1 :=
      match matchUrc line with
      | some td => { st with urcQueue := st.urcQueue ++ [td] }
      | none => st
    { st1 with responseData := st1.responseData.accumulate (respOf line) }

/-- Model of `re.search(r'AT([\+\%][^=?]+)', s)`: leftmost occurrence of
`AT` followed by `+` or `%` and then at least one character other than `=`
and `?` (the class `[^=?]+` is one-or-more, so a sign followed by nothing,
by `=` or by `?` is not a match there); `group(1)` is the sign character
together with the maximal (greedy) nonempty run of characters other than
`=` and `?`.  When the occurrence starting at one position fails, the
search resumes from the next position, as `re.search` scans on. -/
def searchAtCommand : List Char → Option (List Char)
  | [] => none
  | c0 :: tail =>
    match c0, tail with
    | 'A', 'T' :: c :: d :: rest =>
      if (c = '+' || c = '%') && !(d = '=' || d = '?') then
        some (c :: d :: rest.takeWhile (fun e => !(e = '=' || e = '?')))
      else searchAtCommand tail
    | _, _ => searchAtCommand tail

/-- The command classification at the top of `AtTerminal.send_command`:
the literal `ATE0` is recognized as itself, otherwise the extractor
pattern decides; `None` means unrecognized. -/
def extractCommand (s : List Char) : Option (List Char) :=
  if s = ['A', 'T', 'E', '0'] then some ['A', 'T', 'E', '0']
  else searchAtCommand s

/-- What a call of `AtTerminal.send_command` does, beyond its return value:
the bytes written, whether the shared accumulator state was reset, and
whether the call blocked on the completion event. -/
structure SendOutcome where
  wrote : List Char
  cleared : Bool
  waited : Bool
  success : Bool
  data : RespData
  deriving DecidableEq, Repr

/-- Model of `AtTerminal.send_command`: for a recognized command the shared state is
cleared, the line goes out with CRLF, and the call blocks on the completion
event for up to 5 seconds; `lines` are the lines the reader thread
processes before the blocked call reads the state, so the reported success
and data are those of the folded reader state.  For an unrecognized
command the line goes out and the call returns success together with no
data at once, touching no shared state. -/
def send_command (st : ReaderState) (s : List Char) (lines : List (List Char)) :
    SendOutcome × ReaderState :=
  match extractCommand s with
  | some _ =>
    let st2 := lines.foldl read_step st.cleared
    ({ wrote := s ++ ['\r', '\n'], cleared := true, waited := true,
       success := st2.responseSuccess, data := st2.responseData }, st2)
  | none =>
    ({ wrote := s ++ ['\r', '\n'], cleared := false, waited := false,
       success := true, data := .nil }, st)

/-! ## Spec-side definitions for refinement comparisons -/

/-- Modelled from the claim's words for C5 (the disputed clause): digit
characters only, identifiers longer than 16 digits produce "the packing of
the first 16 digits", otherwise left-pad a zero digit when odd, pack two
digits per byte, right-pad with zero bytes to exactly 8 bytes. -/
def encode_imei_bcd_claimed_spec (imei_str : List Char) : List Nat :=
  let digits := imei_str.filter Char.isDigit
  let digits := if digits.length > 16 then digits.take 16 else digits
  let digits := if digits.length % 2 = 1 then '0' :: digits else digits
  let b := packBcdPairs digits
  b ++ List.replicate (8 - b.length) 0

/-- Modelled from the amended claim's words for C5: digit characters only,
left-pad a zero digit when the digit count is odd, pack two digits per byte
(first digit in the high nibble), then right-pad with zero bytes and keep
exactly the first 8 bytes (so an identifier of more than 16 digits is cut
after 16 nibbles of the zero-padded digit string). -/
def encode_imei_bcd_amended_spec (imei_str : List Char) : List Nat :=
  let digits := imei_str.filter Char.isDigit
  let digits := if digits.length % 2 = 1 then '0' :: digits else digits
  (packBcdPairs digits ++ List.replicate 8 0).take 8

/-! ## Helper lemmas -/

lemma packBcdPairs_nil : packBcdPairs [] = [] := rfl

lemma encode_imei_bcd_eq_amended (s : List Char) :
    encode_imei_bcd s = encode_imei_bcd_amended_spec s := by
  unfold encode_imei_bcd encode_imei_bcd_amended_spec
  set digits := s.filter Char.isDigit with hdig
  by_cases h0 : digits.length = 0
  · simp only [h0, if_pos rfl]
    rw [List.length_eq_zero] at h0
    rw [h0]
    norm_num [packBcdPairs_nil, List.take_replicate]
  · simp only [if_neg h0]
    set padded := if digits.length % 2 = 1 then '0' :: digits else digits
    set b := packBcdPairs padded with hb
    by_cases hlt : b.length < 8
    · rw [if_pos hlt, List.take_append_eq_append_take, List.take_of_length_le (by omega),
        List.take_replicate]
      congr 1
      congr 1
      omega
    · rw [if_neg hlt, List.take_append_eq_append_take]
      have h8 : 8 - b.length = 0 := by omega
      simp [h8]

lemma encode_imei_bcd_length (s : List Char) : (encode_imei_bcd s).length = 8 := by
  rw [encode_imei_bcd_eq_amended]
  unfold encode_imei_bcd_amended_spec
  simp only [List.length_take, List.length_append, List.length_replicate]
  omega

/-- The value of the `k`-th transaction id when counting from state `s`. -/
lemma transaction_id_after_eq (s : Nat) : ∀ k, 1 ≤ k →
    transaction_id_after s k = (s + k) % 65536 := by
  intro k
  induction k with
  | zero => omega
  | succ n ih =>
    intro _
    by_cases hn : 1 ≤ n
    · show next_transaction_id (transaction_id_after s n) = _
      rw [ih hn]
      unfold next_transaction_id
      omega
    · have : n = 0 := by omega
      subst this
      show (s + 1) % 65536 = (s + 1) % 65536
      rfl

/-! ## Claim C5 -/

/-- C5 (counterexample): on the 17-digit identifier `10000000000000000` the
code produces `01 00 00 00 00 00 00 00` (zero nibble prepended before
truncation), not the packing `10 00 00 00 00 00 00 00` of the first 16
digits that the claim demands. -/
theorem C5_counterexample :
    encode_imei_bcd "10000000000000000".data = [1, 0, 0, 0, 0, 0, 0, 0] ∧
    encode_imei_bcd_claimed_spec "10000000000000000".data = [16, 0, 0, 0, 0, 0, 0, 0] ∧
    encode_imei_bcd "10000000000000000".data ≠
      encode_imei_bcd_claimed_spec "10000000000000000".data := by
  refine ⟨by decide, by decide, by decide⟩

/-- C5 (amended): the packed-decimal encoding keeps only digit characters,
left-pads a single zero digit when the digit count is odd, packs two digits
per byte with the first digit in the high nibble, and yields exactly the
first 8 bytes of that packing right-padded with zero bytes — so an
identifier of more than 16 digits is cut after 16 nibbles of the
zero-padded digit string, and the result always has exactly 8 bytes. -/
theorem C5_amended (s : List Char) :
    encode_imei_bcd s = encode_imei_bcd_amended_spec s ∧
    (encode_imei_bcd s).length = 8 :=
  ⟨encode_imei_bcd_eq_amended s, encode_imei_bcd_length s⟩

/-! ## Claim C6 -/

/-- C6: for an ASCII input of at most 255 bytes the variable-length string
encoder emits one length byte equal to the byte count followed by the bytes
unchanged; for a longer ASCII input it emits length byte 255 followed by
exactly the first 255 bytes, and in neither case does it fail. -/
theorem C6_var_string (s : List Char) (hascii : ∀ c ∈ s, c.toNat < 128) :
    (s.length ≤ 255 → encode_var_string s = some (s.length :: s.map Char.toNat)) ∧
    (s.length > 255 → encode_var_string s = some (255 :: (s.map Char.toNat).take 255)) := by
  have hall : s.all (fun c => c.toNat < 128) = true := by
    rw [List.all_eq_true]
    intro c hc
    simpa using hascii c hc
  constructor
  · intro hlen
    simp only [encode_var_string, hall, if_true, List.length_map]
    rw [if_neg (by omega), List.length_map]
  · intro hlen
    simp only [encode_var_string, hall, if_true, List.length_map]
    rw [if_pos (by omega), List.length_take, List.length_map]
    have hm : min 255 s.length = 255 := by omega
    rw [hm]

/-- C6 (witness): a 2-byte string encodes as its length byte and bytes; a
256-byte string encodes as length byte 255 and its first 255 bytes. -/
theorem C6_var_string_witness :
    encode_var_string "ab".data = some ["ab".data.length, 97, 98] ∧
    encode_var_string (List.replicate 256 'a') =
      some (255 :: ((List.replicate 256 'a').map Char.toNat).take 255) := by
  constructor
  · exact (C6_var_string "ab".data (by decide)).1 (by decide)
  · exact (C6_var_string (List.replicate 256 'a')
      (fun c hc => by rw [List.eq_of_mem_replicate hc]; decide)).2
      (by rw [List.length_replicate]; omega)

/-! ## Claim C3 -/

/-- C3: from the initial counter state 0, the `k`-th call of the
transaction-id generator returns `k % 65536` (so the first call returns 1
and the 65536-th returns 0); any 65536 consecutive calls return pairwise
distinct values, and every id in `0..65535` occurs among them. -/
theorem C3_transaction_ids :
    (∀ k, 1 ≤ k → transaction_id_after 0 k = k % 65536) ∧
    (∀ s i j, 1 ≤ i → i < j → j ≤ 65536 →
      transaction_id_after s i ≠ transaction_id_after s j) ∧
    (∀ s r, r < 65536 → ∃ i, 1 ≤ i ∧ i ≤ 65536 ∧ transaction_id_after s i = r) := by
  refine ⟨fun k hk => by simpa using transaction_id_after_eq 0 k hk, ?_, ?_⟩
  · intro s i j hi hij hj
    rw [transaction_id_after_eq s i hi, transaction_id_after_eq s j (by omega)]
    omega
  · intro s r hr
    refine ⟨if s % 65536 < r then r - s % 65536 else r + 65536 - s % 65536, ?_, ?_, ?_⟩
    · split <;> omega
    · split <;> omega
    · rw [transaction_id_after_eq s _ (by split <;> omega)]
      split <;> omega

/-- C3 (witness): the second call from the initial state returns 2, the
first and second calls from state 5 differ, and id 3 occurs within 65536
calls from state 9. -/
theorem C3_transaction_ids_witness :
    transaction_id_after 0 2 = 2 % 65536 ∧
    transaction_id_after 5 1 ≠ transaction_id_after 5 2 ∧
    (∃ i, 1 ≤ i ∧ i ≤ 65536 ∧ transaction_id_after 9 i = 3) :=
  ⟨C3_transaction_ids.1 2 (by decide),
   C3_transaction_ids.2.1 5 1 2 (by decide) (by decide) (by decide),
   C3_transaction_ids.2.2 9 3 (by decide)⟩

/-! ## Claim C2 -/

lemma decode_packet_header_cons (b0 b1 b2 b3 b4 : Nat) (rest : List Nat) :
    decode_packet_header (b0 :: b1 :: b2 :: b3 :: b4 :: rest) =
      ⟨some b0, some [Char.ofNat b1, Char.ofNat b2], some (b3 * 256 + b4), rest⟩ := by
  unfold decode_packet_header
  simp [List.getD]

/-- C2 (counterexample): the digit-string device ids `"1"` and `"100"`
(lengths 1 and 3, both within 1..20) produce byte-for-byte identical
headers, so no decoding of the header bytes can yield the encoded device
id for both of them — the claimed four-field round-trip fails; the
decoder's fourth component for that common header is the raw BCD remainder
`01 00 00 00 00 00 00 00`, not either digit string. -/
theorem C2_counterexample :
    build_header 1 'A' 'B' 5 "1".data = build_header 1 'A' 'B' 5 "100".data ∧
    "1".data ≠ "100".data ∧
    (decode_packet_header [1, 65, 66, 0, 5, 1, 0, 0, 0, 0, 0, 0, 0]).remainder =
      [1, 0, 0, 0, 0, 0, 0, 0] := by
  exact ⟨by decide, by decide, by decide⟩

/-- C2 (amended): for a version in 0..255, a two-character command with
byte-sized character codes, and a transactionId in 0..65535, encoding the
header and decoding the resulting bytes recovers the version, the command
and the transactionId exactly, and the decoder's remainder equals the
8-byte packed-BCD encoding of the device id (the digit string itself is not
recovered; distinct ids such as "1" and "100" encode identically). -/
theorem C2_header_roundtrip (version : Nat) (cmd1 cmd2 : Char)
    (transaction_id : Nat) (imei : List Char) (h : List Nat)
    (hv : version < 256) (hc1 : cmd1.toNat < 256) (hc2 : cmd2.toNat < 256)
    (ht : transaction_id < 65536)
    (hbuild : build_header version cmd1 cmd2 transaction_id imei = some h) :
    decode_packet_header h =
      ⟨some version, some [cmd1, cmd2], some transaction_id, encode_imei_bcd imei⟩ := by
  unfold build_header at hbuild
  rw [if_pos ⟨hv, hc1, hc2, ht⟩] at hbuild
  injection hbuild with hb
  subst hb
  have hsplit : [version, cmd1.toNat, cmd2.toNat] ++ u16be transaction_id ++
      encode_imei_bcd imei =
      version :: cmd1.toNat :: cmd2.toNat :: (transaction_id / 256) ::
        (transaction_id % 256) :: encode_imei_bcd imei := rfl
  rw [hsplit, decode_packet_header_cons, Char.ofNat_toNat, Char.ofNat_toNat]
  simp only [DecodedHeader.mk.injEq, Option.some.injEq, true_and, and_true]
  omega

/-- C2 (witness): a concrete instance of the amended round-trip, at
version 1, command "AB", transaction id 5 and device id "1". -/
theorem C2_header_roundtrip_witness :
    decode_packet_header [1, 65, 66, 0, 5, 1, 0, 0, 0, 0, 0, 0, 0] =
      ⟨some 1, some ['A', 'B'], some 5, encode_imei_bcd "1".data⟩ :=
  C2_header_roundtrip 1 'A' 'B' 5 "1".data _ (by decide) (by decide) (by decide)
    (by decide) (by decide)

/-! ## Claim C1 -/

lemma pyTrunc_neg_ten : pyTrunc ((-1 : ℚ) * 10) = -10 := by
  have he : ((-1 : ℚ) * 10) = ((-10 : ℤ) : ℚ) := by norm_num
  rw [he]
  unfold pyTrunc
  split
  · exact Int.floor_intCast _
  · exact Int.ceil_intCast _

lemma pyRound_neg_ten : pyRound ((-1 : ℚ) * 10) = -10 := by
  have he : ((-1 : ℚ) * 10) = ((-10 : ℤ) : ℚ) := by norm_num
  unfold pyRound
  rw [he, Int.floor_intCast, if_pos (by norm_num)]

lemma floor_fifteen_halves : ⌊(15 / 2 : ℚ)⌋ = 7 :=
  Int.floor_eq_iff.mpr (by norm_num)

lemma pyTrunc_three_quarters : pyTrunc ((3 / 4 : ℚ) * 10) = 7 := by
  have he : ((3 / 4 : ℚ) * 10) = 15 / 2 := by norm_num
  unfold pyTrunc
  rw [he, if_pos (by norm_num), floor_fifteen_halves]

lemma pyRound_three_quarters : pyRound ((3 / 4 : ℚ) * 10) = 8 := by
  have he : ((3 / 4 : ℚ) * 10) = 15 / 2 := by norm_num
  unfold pyRound
  rw [he, floor_fifteen_halves, if_neg (by norm_num), if_neg (by norm_num),
    if_neg (by norm_num)]
  norm_num

/-- C1 (code bug): the Basic sensor variant packs `int(temperature * 10)`
with the unsigned format `'>H'`, although the claim and the class's own
docstring (`int16, value = temp*10`) call for a signed 16-bit.  So at
temperature −1.0 the encoder raises `struct.error` (here: returns `none`)
where the claimed encoding is the two's-complement bytes `FF F6`; and at
temperature 0.75 it truncates 7.5 to byte value 7 where the claimed
`round(0.75 * 10)` is 8.  The Multi-record variant, packing
`int(round(v * 10))` with `'>hh'`, agrees with the claim: its record for
temperature −1.0 and humidity 0.75 is `FF F6 00 08`. -/
theorem C1_scaling_bug :
    SensorData.to_bytes 1 1 (-1) 50 20 = none ∧
    i16be (pyRound ((-1 : ℚ) * 10)) = [255, 246] ∧
    SensorData.to_bytes 1 1 (3/4) 50 20 = some [1, 1, 4, 0, 7, 50, 20] ∧
    pyRound ((3/4 : ℚ) * 10) = 8 ∧
    SensorMultiData.record_bytes (-1) (3/4) = some [255, 246, 0, 8] := by
  refine ⟨?_, ?_, ?_, pyRound_three_quarters, ?_⟩
  · simp only [SensorData.to_bytes, pyTrunc_neg_ten]
    rw [if_neg (by decide)]
  · rw [pyRound_neg_ten]
    decide
  · simp only [SensorData.to_bytes, pyTrunc_three_quarters]
    rw [if_pos (by decide)]
    decide
  · simp only [SensorMultiData.record_bytes, pyRound_neg_ten, pyRound_three_quarters]
    rw [if_pos (by decide)]
    decide

/-! ## Claim C8 -/

lemma mem_resolve_acked (st : AckState) (txn : Nat) : txn ∈ (resolve st txn).acked := by
  unfold resolve
  by_cases h : txn ∈ st.acked
  · simp only [if_pos h]
    exact h
  · simp [h]

/-- C8: if an id has been resolved before `wait_for_ack` is called for it,
the fast path fires: the call returns true immediately (no registration, no
blocking) and leaves the correlator state untouched, because the resolved
id stays in the acknowledged-id memory. -/
theorem C8_resolved_fast_path (st : AckState) (txn : Nat) :
    wait_for_ack_register (resolve st txn) txn = (some true, resolve st txn) := by
  unfold wait_for_ack_register
  rw [if_pos (mem_resolve_acked st txn)]

/-! ## Claim C9 -/

/-- C9: resolving the same transaction id twice leaves the correlator state
(the acknowledged-id memory, the pending-waiter mapping and the legacy
any-ack flag) identical to resolving it once; the second resolve is a
total no-op rather than an error. -/
theorem C9_resolve_idempotent (st : AckState) (txn : Nat) :
    resolve (resolve st txn) txn = resolve st txn := by
  have hm : txn ∈ (resolve st txn).acked := mem_resolve_acked st txn
  show AckState.mk _ _ _ = _
  unfold resolve
  rw [if_pos (by exact mem_resolve_acked st txn)]
  simp [resolve, List.filter_filter]

/-! ## Claim C4 -/

/-- C4 (counterexample): the event line `%SOCKETEV:1\r\n`, read in the
initial state, is enqueued on the URC queue but is *also* accumulated into
the in-flight command's response data (which the claim says must stay
empty): the loop body has no early exit between the URC enqueue and the
accumulation. -/
theorem C4_counterexample :
    (read_step ReaderState.init "%SOCKETEV:1\r\n".data).urcQueue =
      [("SOCKETEV".data, ['1', '\r'])] ∧
    (read_step ReaderState.init "%SOCKETEV:1\r\n".data).responseData ≠ RespData.nil := by
  exact ⟨by decide, by decide⟩

/-- C4 (amended): every line matching the event pattern `%TAG:payload` is
enqueued as the event `(TAG, payload)` on the event queue *and* is also
accumulated into the in-flight command's response data (after the
colon-split-and-strip step); the event classification and the
response-data accumulation are not mutually exclusive. -/
theorem C4_urc_line (st : ReaderState) (line tag data : List Char)
    (h : matchUrc line = some (tag, data)) :
    read_step st line =
      { st with urcQueue := st.urcQueue ++ [(tag, data)],
                responseData := st.responseData.accumulate (respOf line) } := by
  have h1 : line ≠ ['\r', '\n'] := by
    rintro rfl
    rw [show matchUrc ['\r', '\n'] = none from by decide] at h
    exact Option.noConfusion h
  have h2 : line ≠ ['O', 'K', '\r', '\n'] := by
    rintro rfl
    rw [show matchUrc ['O', 'K', '\r', '\n'] = none from by decide] at h
    exact Option.noConfusion h
  have h3 : line ≠ ['E', 'R', 'R', 'O', 'R', '\r', '\n'] := by
    rintro rfl
    rw [show matchUrc ['E', 'R', 'R', 'O', 'R', '\r', '\n'] = none from by decide] at h
    exact Option.noConfusion h
  unfold read_step
  rw [if_neg h1, if_neg h2, if_neg h3, h]

/-- C4 (witness): the event line `%X:9\r\n` from the initial state ends up
both on the URC queue and, stripped to `9`, in the response data. -/
theorem C4_urc_line_witness :
    read_step ReaderState.init "%X:9\r\n".data =
      { ReaderState.init with urcQueue := [(['X'], ['9', '\r'])],
                              responseData := RespData.str ['9'] } :=
  (C4_urc_line ReaderState.init "%X:9\r\n".data ['X'] ['9', '\r'] (by decide)).trans
    (by decide)

/-! ## Claim C7 -/

lemma read_step_preserves_flags (st : ReaderState) (line : List Char)
    (hok : line ≠ ['O', 'K', '\r', '\n'])
    (herr : line ≠ ['E', 'R', 'R', 'O', 'R', '\r', '\n']) :
    (read_step st line).eventSet = st.eventSet ∧
      (read_step st line).responseSuccess = st.responseSuccess := by
  unfold read_step
  by_cases hb : line = ['\r', '\n']
  · rw [if_pos hb]
    exact ⟨rfl, rfl⟩
  · rw [if_neg hb, if_neg hok, if_neg herr]
    cases hm : matchUrc line with
    | none => exact ⟨rfl, rfl⟩
    | some td => exact ⟨rfl, rfl⟩

lemma foldl_read_step_flags (lines : List (List Char)) (st : ReaderState)
    (h : ∀ l ∈ lines, l ≠ ['O', 'K', '\r', '\n'] ∧
      l ≠ ['E', 'R', 'R', 'O', 'R', '\r', '\n']) :
    (lines.foldl read_step st).eventSet = st.eventSet ∧
      (lines.foldl read_step st).responseSuccess = st.responseSuccess := by
  induction lines generalizing st with
  | nil => exact ⟨rfl, rfl⟩
  | cons l rest ih =>
    have hl := h l (by simp)
    have hrest : ∀ x ∈ rest, x ≠ ['O', 'K', '\r', '\n'] ∧
        x ≠ ['E', 'R', 'R', 'O', 'R', '\r', '\n'] :=
      fun x hx => h x (by simp [hx])
    rw [List.foldl_cons]
    obtain ⟨he, hs⟩ := read_step_preserves_flags st l hl.1 hl.2
    obtain ⟨he2, hs2⟩ := ih (read_step st l) hrest
    exact ⟨he2.trans he, hs2.trans hs⟩

/-- C7: a recognized command whose completion event is never set during the
5-second wait — that is, the reader saw no `OK` or `ERROR` terminator —
returns from the blocking path (`waited = true`, and no exception: the
timeout path is a total function here) with `success = false` and with
exactly the partial response data the reader accumulated; when no response
line arrived at all the data is none. -/
theorem C7_timeout (st : ReaderState) (cmd c : List Char) (lines : List (List Char))
    (hcmd : extractCommand cmd = some c)
    (hterm : ∀ l ∈ lines, l ≠ ['O', 'K', '\r', '\n'] ∧
      l ≠ ['E', 'R', 'R', 'O', 'R', '\r', '\n']) :
    (send_command st cmd lines).1.waited = true ∧
    (send_command st cmd lines).1.success = false ∧
    (send_command st cmd lines).2.eventSet = false ∧
    (send_command st cmd lines).1.data =
      (lines.foldl read_step st.cleared).responseData ∧
    (lines = [] → (send_command st cmd lines).1.data = RespData.nil) := by
  unfold send_command
  rw [hcmd]
  obtain ⟨he, hs⟩ := foldl_read_step_flags lines st.cleared hterm
  refine ⟨rfl, hs, he, rfl, ?_⟩
  rintro rfl
  rfl

/-- C7 (witness): sending the recognized command `AT+CGSN` with no reader
activity during the wait window times out with success = false and no
data. -/
theorem C7_timeout_witness :
    (send_command ReaderState.init "AT+CGSN".data []).1.waited = true ∧
    (send_command ReaderState.init "AT+CGSN".data []).1.success = false ∧
    (send_command ReaderState.init "AT+CGSN".data []).2.eventSet = false ∧
    (send_command ReaderState.init "AT+CGSN".data []).1.data =
      (([] : List (List Char)).foldl read_step ReaderState.init.cleared).responseData ∧
    (([] : List (List Char)) = [] →
      (send_command ReaderState.init "AT+CGSN".data []).1.data = RespData.nil) :=
  C7_timeout ReaderState.init "AT+CGSN".data ['+', 'C', 'G', 'S', 'N'] []
    (by decide) (by simp)

/-! ## Claim C10 -/

/-- C10: a command string other than `ATE0` that the AT command-extraction
pattern does not match is written out terminated by CRLF and the call
returns at once with success = true and no data, neither resetting the
shared accumulator state nor waiting on the completion event; the reader
state is untouched. -/
theorem C10_unrecognized (st : ReaderState) (s : List Char) (lines : List (List Char))
    (hne : s ≠ ['A', 'T', 'E', '0']) (hmatch : searchAtCommand s = none) :
    send_command st s lines =
      ({ wrote := s ++ ['\r', '\n'], cleared := false, waited := false,
         success := true, data := RespData.nil }, st) := by
  unfold send_command extractCommand
  rw [if_neg hne, hmatch]

/-- C10 (witness): neither `HELLO` nor `AT+=1` is `ATE0` or matches the
extraction pattern (the latter because `[^=?]+` needs at least one
character after the sign that is not `=` or `?`); sending either writes
the CRLF-terminated line and returns success with no data, leaving the
reader state unchanged. -/
theorem C10_unrecognized_witness :
    send_command ReaderState.init "HELLO".data [] =
      ({ wrote := "HELLO".data ++ ['\r', '\n'], cleared := false, waited := false,
         success := true, data := RespData.nil }, ReaderState.init) ∧
    send_command ReaderState.init "AT+=1".data [] =
      ({ wrote := "AT+=1".data ++ ['\r', '\n'], cleared := false, waited := false,
         success := true, data := RespData.nil }, ReaderState.init) :=
  ⟨C10_unrecognized ReaderState.init "HELLO".data [] (by decide) (by decide),
   C10_unrecognized ReaderState.init "AT+=1".data [] (by decide) (by decide)⟩
